import Mathlib

/-!
Shallow embedding of the health-evaluation and history/trend core of the
diskmonitor repository: `DiskHealthMonitor._calculate_health_score` and
`DiskHealthMonitor.analyze_smart_attribute` from `src/monitor.py`, and the
`DiskHistory` store (`log_status`, `get_io_history`, `get_latest_stats`,
`analyze_trend`) from `src/history.py`.

Python numbers from the parsed smartctl JSON are modelled as `Int` (Python
integers are signed and unbounded); optional / possibly-missing JSON fields
are modelled as `Option`.  Python truthiness on numbers (`if threshold and
normalized`) is modelled by `truthy`, which is false for a missing value and
for `0`.  The SQLite table is modelled as a list of rows in insertion order;
`ORDER BY timestamp ASC` is modelled by a stable insertion sort on the
timestamp and `ORDER BY timestamp DESC` by its reverse (exact on states with
distinct per-serial timestamps, which SQL leaves unspecified otherwise).
-/

namespace DiskMonitor

/-- One row of the `ata_smart_attributes.table` list as consumed by
`_calculate_health_score`: `attr.get("id")`, `attr.get("raw", ...).get("value", 0)`
and the normalized `attr.get("value", ...)` (the latter is only probed in a
dead `231/233` branch whose body is `pass`). -/
structure AtaAttr where
  id : Int
  raw_value : Int
  value : Option Int
deriving DecidableEq, Repr

/-- The slice of the parsed smartctl JSON dictionary that
`_calculate_health_score` reads: `smart_status.passed` (absent keys give the
default `True`), presence/value of
`nvme_smart_health_information_log.percentage_used`, and the ATA attribute
table (absent table gives `[]`). -/
structure Snapshot where
  smart_status_passed : Option Bool
  nvme_percentage_used : Option Int
  ata_table : List AtaAttr
deriving DecidableEq, Repr

namespace DiskHealthMonitor

/-- One iteration of the penalty loop in `_calculate_health_score`
(`src/monitor.py` lines 415-435): the `if/elif` chain on the attribute id,
each branch guarded by `raw > 0`.  The separate `id_ == 231 or id_ == 233`
check in the source computes nothing (its body is `pass`), so it is omitted. -/
def scoreStep (score : Int) (attr : AtaAttr) : Int :=
  if attr.id = 5 ∧ attr.raw_value > 0 then score - (10 + min attr.raw_value 40)
  else if attr.id = 197 ∧ attr.raw_value > 0 then score - (5 + min attr.raw_value 20)
  else if attr.id = 198 ∧ attr.raw_value > 0 then score - (5 + min attr.raw_value 20)
  else if attr.id = 187 ∧ attr.raw_value > 0 then score - min attr.raw_value 50
  else score

/-- `DiskHealthMonitor._calculate_health_score` (`src/monitor.py` 389-437):
return 0 when `smart_status.passed` is false; else, when the NVMe log has
`percentage_used`, return `max(0, 100 - used)`; else fold the ATA penalty
loop from 100 and clamp with `max(0, score)`. -/
def calculate_health_score (data : Snapshot) : Int :=
  if data.smart_status_passed.getD true = false then 0
  else
    match data.nvme_percentage_used with
    | some used => max 0 (100 - used)
    | none => max 0 (data.ata_table.foldl scoreStep 100)

/-- Python truthiness of an optional number: `None` and `0` are falsy. -/
def truthy : Option Int → Bool
  | none => false
  | some v => v != 0

/-- The guard of step 1 of `analyze_smart_attribute` (`src/monitor.py`
447-450): `threshold and normalized and isinstance(...)` followed by
`threshold > 0 and normalized <= threshold`.  The two nested `if`s in the
source return only when both hold, otherwise control falls through to the
per-id checks, so they are modelled as one conjunction.  In the `Int` model
`isinstance` is always true. -/
def threshold_check (normalized threshold : Option Int) : Bool :=
  truthy threshold && truthy normalized
    && decide (threshold.getD 0 > 0) && decide (normalized.getD 0 ≤ threshold.getD 0)

/-- `DiskHealthMonitor.analyze_smart_attribute` (`src/monitor.py` 439-475).
Statuses are the strings of the source: "OK", "WARN", "CRIT". -/
def analyze_smart_attribute (id_ raw : Int) (normalized threshold : Option Int)
    (rotation_rate : Int) : String × String :=
  if threshold_check normalized threshold then ("CRIT", "Failed Threshold")
  else if id_ = 5 then
    if raw > 10 then ("CRIT", toString raw ++ " bad sectors")
    else if raw > 0 then ("WARN", toString raw ++ " bad sectors")
    else ("OK", "Good")
  else if id_ = 197 then
    if raw > 0 then ("WARN", toString raw ++ " unstable sectors") else ("OK", "Good")
  else if id_ = 198 then
    if raw > 0 then ("CRIT", toString raw ++ " uncorrectable") else ("OK", "Good")
  else if id_ = 187 then
    if raw > 0 then ("CRIT", toString raw ++ " uncorrectable") else ("OK", "Good")
  else if id_ = 199 then
    if raw > 0 then ("WARN", "Check Cable") else ("OK", "Good")
  else if id_ = 169 ∨ id_ = 173 ∨ id_ = 230 ∨ id_ = 231 ∨ id_ = 232 ∨ id_ = 233 then
    if rotation_rate = 0 ∧ truthy normalized ∧ normalized.getD 0 < 10 then
      ("CRIT", "Wearing Out")
    else ("OK", "Good")
  else ("OK", "Good")

/-- Penalty charged by one loop iteration of `_calculate_health_score`;
`scoreStep s a = s - attrPenalty a`. -/
def attrPenalty (attr : AtaAttr) : Int :=
  if attr.id = 5 ∧ attr.raw_value > 0 then 10 + min attr.raw_value 40
  else if attr.id = 197 ∧ attr.raw_value > 0 then 5 + min attr.raw_value 20
  else if attr.id = 198 ∧ attr.raw_value > 0 then 5 + min attr.raw_value 20
  else if attr.id = 187 ∧ attr.raw_value > 0 then min attr.raw_value 50
  else 0

end DiskHealthMonitor

/-- One row of the `disk_stats` table (post-migration schema, `src/history.py`
13-40): `io_load` was added by migration (nullable in SQL, but every row the
modelled `log_status` writes carries a value) and `write_errors` may be NULL
on legacy rows, hence `Option`. -/
structure Sample where
  serial_number : String
  timestamp : Nat
  reallocated_sectors : Int
  read_errors : Int
  power_on_hours : Int
  pending_sectors : Int
  io_load : Int
  write_errors : Option Int
deriving DecidableEq, Repr

/-- The record shape produced by `DiskHistory.get_latest_stats`
(`src/history.py` 70-83): exactly the five selected columns
`reallocated_sectors, read_errors, power_on_hours, pending_sectors, timestamp`;
`io_load` and `write_errors` are not selected. -/
structure LatestStats where
  reallocated_sectors : Int
  read_errors : Int
  power_on_hours : Int
  pending_sectors : Int
  timestamp : Nat
deriving DecidableEq, Repr

/-- The result dictionary of `DiskHistory.analyze_trend` (`src/history.py`
112-117), initialized to `{"status": "OK", "messages": [], "rsc_trend": 0,
"read_err_trend": 0}`. -/
structure TrendResult where
  status : String
  messages : List String
  rsc_trend : Int
  read_err_trend : Int
deriving DecidableEq, Repr

namespace DiskHistory

/-- `DiskHistory.log_status` (`src/history.py` 44-53): INSERT of one row.
`datetime.datetime.now()` is passed in as the explicit timestamp `now`;
the Python defaults are `io_load=0.0, write_err=0`. -/
def log_status (db : List Sample) (serial : String) (now : Nat)
    (rsc read_err hours pending io_load write_err : Int) : List Sample :=
  db ++ [⟨serial, now, rsc, read_err, hours, pending, io_load, some write_err⟩]

/-- The rows of the table with `serial_number = ?`, in insertion order. -/
def rowsFor (db : List Sample) (serial : String) : List Sample :=
  db.filter (fun s => s.serial_number == serial)

/-- Stable insertion of a row into a timestamp-sorted list (earlier-inserted
rows come first among equal timestamps). -/
def insertAsc (a : Sample) : List Sample → List Sample
  | [] => [a]
  | b :: bs => if a.timestamp ≤ b.timestamp then a :: b :: bs else b :: insertAsc a bs

/-- Stable sort by timestamp: the model of `ORDER BY timestamp ASC`. -/
def sortAsc : List Sample → List Sample
  | [] => []
  | a :: l => insertAsc a (sortAsc l)

/-- Rows of a serial in `ORDER BY timestamp ASC` order. -/
def ascRows (db : List Sample) (serial : String) : List Sample :=
  sortAsc (rowsFor db serial)

/-- Rows of a serial in `ORDER BY timestamp DESC` order. -/
def descRows (db : List Sample) (serial : String) : List Sample :=
  (ascRows db serial).reverse

/-- `DiskHistory.get_io_history` (`src/history.py` 55-68):
`SELECT timestamp, io_load ... ORDER BY timestamp ASC LIMIT ?`. -/
def get_io_history (db : List Sample) (serial : String) (limit : Nat) :
    List (Nat × Int) :=
  ((ascRows db serial).take limit).map (fun s => (s.timestamp, s.io_load))

/-- The projection performed by the SELECT list of `get_latest_stats`. -/
def latestStatsOf (s : Sample) : LatestStats :=
  ⟨s.reallocated_sectors, s.read_errors, s.power_on_hours, s.pending_sectors,
   s.timestamp⟩

/-- `DiskHistory.get_latest_stats` (`src/history.py` 70-83):
`SELECT reallocated_sectors, read_errors, power_on_hours, pending_sectors,
timestamp ... ORDER BY timestamp DESC LIMIT 1`, `fetchone`. -/
def get_latest_stats (db : List Sample) (serial : String) : Option LatestStats :=
  (descRows db serial).head?.map latestStatsOf

/-- Model of Python `pat in str(messages)` for `pat = "reallocated_sectors"`:
since that pattern contains no quote, bracket or comma, it occurs in the
`str()` rendering of the list iff it occurs in some element. -/
def messagesMention (msgs : List String) (pat : String) : Bool :=
  msgs.any (fun m => decide (1 < (m.splitOn pat).length))

/-- The check against the oldest known state (`src/history.py` 124-130). -/
def sinceFirstCheck (current : Sample) (oldest : Option Sample)
    (result : TrendResult) : TrendResult :=
  match oldest with
  | some old =>
      let rsc_growth := current.reallocated_sectors - old.reallocated_sectors
      if rsc_growth > 0 then
        { result with
          status := "WARNING",
          messages := result.messages ++
            ["Reallocated Sectors increased by " ++ toString rsc_growth ++
              " since first scan."],
          rsc_trend := rsc_growth }
      else result
  | none => result

/-- The immediate rapid-change check (`src/history.py` 132-154), run only
when a previous scan exists; `current[...] or 0` on `write_errors` is
`Option.getD 0`. -/
def immediateCheck (current : Sample) (rest : List Sample)
    (result : TrendResult) : TrendResult :=
  match rest with
  | [] => result
  | prev :: _ =>
      let rsc_diff := current.reallocated_sectors - prev.reallocated_sectors
      let read_diff := current.read_errors - prev.read_errors
      let write_diff := current.write_errors.getD 0 - prev.write_errors.getD 0
      let r1 :=
        if rsc_diff > 0 then
          { result with
            status := "CRITICAL",
            messages := result.messages ++
              ["New Reallocated Sectors detected! (+" ++ toString rsc_diff ++ ")"] }
        else result
      let r2 :=
        if read_diff > 0 then
          { r1 with messages := r1.messages ++
              ["New Read Errors detected! (+" ++ toString read_diff ++ ")"] }
        else r1
      if write_diff > 0 then
        { r2 with messages := r2.messages ++
            ["New Write Errors detected! (+" ++ toString write_diff ++ ")"] }
      else r2

/-- The absolute-threshold check (`src/history.py` 156-161): hitting it sets
WARNING first, then appends the message unless `"reallocated_sectors"`
already occurs in `str(messages)`. -/
def absoluteCheck (current : Sample) (result : TrendResult) : TrendResult :=
  if current.reallocated_sectors > 0 ∧ result.status = "OK" then
    let promoted := { result with status := "WARNING" }
    if messagesMention promoted.messages "reallocated_sectors" then promoted
    else
      { promoted with messages := promoted.messages ++
          ["Has " ++ toString current.reallocated_sectors ++
            " Reallocated Sectors."] }
  else result

/-- `DiskHistory.analyze_trend` (`src/history.py` 85-163): fetch the two most
recent rows and the oldest row for the serial, return the initial result when
no rows exist, else run the three checks in source order. -/
def analyze_trend (db : List Sample) (serial : String) : TrendResult :=
  match (descRows db serial).take 2 with
  | [] => ⟨"OK", [], 0, 0⟩
  | current :: rest =>
      absoluteCheck current
        (immediateCheck current rest
          (sinceFirstCheck current ((ascRows db serial).head?) ⟨"OK", [], 0, 0⟩))

end DiskHistory

end DiskMonitor

open DiskMonitor DiskMonitor.DiskHealthMonitor DiskMonitor.DiskHistory

/-- Concrete store state for the trend-escalation scenario: sample A
(rsc 0, read errors 0, hours 10, pending 0) at time 1, then sample B
(rsc 3, read errors 0, hours 11, pending 0) at time 2, same serial. -/
def c7_db : List Sample :=
  log_status (log_status [] "SER1" 1 0 0 10 0 0 0) "SER1" 2 3 0 11 0 0 0

/-- Concrete store state with three samples for one serial, at strictly
increasing timestamps. -/
def c9_db : List Sample :=
  [⟨"S9", 1, 0, 0, 1, 0, 10, none⟩, ⟨"S9", 2, 0, 0, 2, 0, 20, none⟩,
   ⟨"S9", 3, 0, 0, 3, 0, 30, none⟩]

/-- Concrete store state with two samples for one serial. -/
def c10_db : List Sample :=
  [⟨"S10", 1, 1, 0, 10, 0, 5, some 0⟩, ⟨"S10", 2, 3, 1, 11, 0, 6, some 0⟩]


/-! Helper lemmas about the scoring loop. -/

theorem scoreStep_eq (s : Int) (a : AtaAttr) : scoreStep s a = s - attrPenalty a := by
  unfold scoreStep attrPenalty
  split_ifs <;> omega

theorem foldl_scoreStep (l : List AtaAttr) (s : Int) :
    l.foldl scoreStep s = s - (l.map attrPenalty).sum := by
  induction l generalizing s with
  | nil => simp
  | cons a l ih =>
      rw [List.foldl_cons, scoreStep_eq, ih, List.map_cons, List.sum_cons]
      omega

theorem attrPenalty_nonneg (a : AtaAttr) : 0 ≤ attrPenalty a := by
  unfold attrPenalty
  split_ifs <;> omega

theorem sum_attrPenalty_nonneg (l : List AtaAttr) : 0 ≤ (l.map attrPenalty).sum := by
  induction l with
  | nil => simp
  | cons a l ih =>
      rw [List.map_cons, List.sum_cons]
      have := attrPenalty_nonneg a
      omega

theorem attrPenalty_mono (a : AtaAttr) (r : Int) (h : a.raw_value ≤ r) :
    attrPenalty a ≤ attrPenalty { a with raw_value := r } := by
  unfold attrPenalty
  dsimp only
  split_ifs <;> omega

theorem attrPenalty_eq_zero (a : AtaAttr)
    (h : ¬ (a.id = 5 ∨ a.id = 187 ∨ a.id = 197 ∨ a.id = 198)) : attrPenalty a = 0 := by
  push_neg at h
  obtain ⟨h5, h187, h197, h198⟩ := h
  simp [attrPenalty, h5, h187, h197, h198]

/-- C1: for every snapshot whose SMART overall pass/fail flag is false, the
health score returned by the scorer is 0, regardless of all other fields
(NVMe health log and ATA attribute table included). -/
theorem c1_smart_failed_scores_zero (data : Snapshot)
    (h : data.smart_status_passed = some false) :
    calculate_health_score data = 0 := by
  unfold calculate_health_score
  simp [h]

theorem c1_smart_failed_scores_zero_witness :
    (Snapshot.mk (some false) (some 3) [⟨5, 7, some 100⟩]).smart_status_passed
        = some false ∧
    calculate_health_score ⟨some false, some 3, [⟨5, 7, some 100⟩]⟩ = 0 :=
  ⟨rfl, c1_smart_failed_scores_zero ⟨some false, some 3, [⟨5, 7, some 100⟩]⟩ rfl⟩

/-- C2 counterexample: on a snapshot that passes SMART and carries a negative
NVMe percentage_used (a value the code never guards against), the score is
101, outside the claimed interval [0, 100]. -/
theorem c2_score_range_counterexample :
    ¬ (0 ≤ calculate_health_score ⟨some true, some (-1), []⟩ ∧
       calculate_health_score ⟨some true, some (-1), []⟩ ≤ 100) := by
  decide

/-- C2 amended: the score is always ≥ 0, and it is ≤ 100 provided the NVMe
percentage_used value, when present, is non-negative (the ATA path and the
SMART-failed path are unconditionally within [0, 100]). -/
theorem c2_amended_score_bounds (data : Snapshot) :
    0 ≤ calculate_health_score data ∧
    ((∀ p : Int, data.nvme_percentage_used = some p → 0 ≤ p) →
      calculate_health_score data ≤ 100) := by
  unfold calculate_health_score
  by_cases hsp : data.smart_status_passed.getD true = false
  · simp [hsp]
  · rcases hpu : data.nvme_percentage_used with _ | p
    · have h0 := sum_attrPenalty_nonneg data.ata_table
      simp only [hsp, if_false, hpu, foldl_scoreStep]
      constructor
      · omega
      · intro _; omega
    · simp only [hsp, if_false, hpu]
      constructor
      · omega
      · intro hp
        have := hp p rfl
        omega

theorem c2_amended_score_bounds_witness :
    0 ≤ calculate_health_score ⟨some true, some 30, []⟩ ∧
    calculate_health_score ⟨some true, some 30, []⟩ ≤ 100 :=
  ⟨(c2_amended_score_bounds ⟨some true, some 30, []⟩).1,
   (c2_amended_score_bounds ⟨some true, some 30, []⟩).2 (by
      intro p hp
      simp only [Option.some.injEq] at hp
      omega)⟩

/-- C3: for every snapshot that passes the SMART check (the flag, defaulted
to true when absent, is true) and whose NVMe log contains percentage_used = p,
the score is max(0, 100 - p), and the ATA table is ignored entirely (the same
score results for every table). -/
theorem c3_nvme_path_score (data : Snapshot) (p : Int)
    (hpass : data.smart_status_passed.getD true = true)
    (hp : data.nvme_percentage_used = some p) :
    calculate_health_score data = max 0 (100 - p) ∧
    ∀ table : List AtaAttr,
      calculate_health_score
          ⟨data.smart_status_passed, data.nvme_percentage_used, table⟩
        = max 0 (100 - p) := by
  constructor
  · unfold calculate_health_score
    simp [hpass, hp]
  · intro table
    unfold calculate_health_score
    simp [hpass, hp]

theorem c3_nvme_path_score_witness :
    (Snapshot.mk (some true) (some 30) [⟨5, 999, none⟩]).smart_status_passed.getD
        true = true ∧
    calculate_health_score ⟨some true, some 30, [⟨5, 999, none⟩]⟩
        = max 0 (100 - 30) ∧
    calculate_health_score ⟨some true, some 30, []⟩ = max 0 (100 - 30) := by
  refine ⟨rfl,
    (c3_nvme_path_score ⟨some true, some 30, [⟨5, 999, none⟩]⟩ 30 rfl rfl).1, ?_⟩
  exact (c3_nvme_path_score ⟨some true, some 30, [⟨5, 999, none⟩]⟩ 30 rfl rfl).2 []

/-- C4 counterexample: with normalized = 0 present and numeric, threshold =
50 > 0 and normalized ≤ threshold, the claim demands (CRITICAL, "Failed
Threshold"), but Python truthiness (`if threshold and normalized`) skips the
threshold check for normalized = 0 and the call returns ("OK", "Good"); the
claimed status string "CRITICAL" also never occurs (the code uses "CRIT"). -/
theorem c4_threshold_check_counterexample :
    analyze_smart_attribute 1 0 (some 0) (some 50) 0 = ("OK", "Good") ∧
    analyze_smart_attribute 1 0 (some 0) (some 50) 0
        ≠ ("CRITICAL", "Failed Threshold") ∧
    analyze_smart_attribute 1 0 (some 0) (some 50) 0
        ≠ ("CRIT", "Failed Threshold") := by
  decide

/-- C4 amended: for every call with threshold and normalized present, numeric
and nonzero (truthy), threshold > 0 and normalized ≤ threshold, the result is
("CRIT", "Failed Threshold") — with that exact status string — and every
per-id raw-value rule is skipped, for every id, raw value and rotation rate;
the normalized = 0 case instead falls through to the per-id rules. -/
theorem c4_amended_threshold_short_circuit (id_ raw n t rotation_rate : Int)
    (hn : n ≠ 0) (ht : 0 < t) (hle : n ≤ t) :
    analyze_smart_attribute id_ raw (some n) (some t) rotation_rate
      = ("CRIT", "Failed Threshold") := by
  have hc : threshold_check (some n) (some t) = true := by
    simp only [threshold_check, truthy, Bool.and_eq_true, bne_iff_ne,
      decide_eq_true_eq, Option.getD_some, ne_eq]
    refine ⟨⟨⟨?_, ?_⟩, ?_⟩, ?_⟩ <;> omega
  unfold analyze_smart_attribute
  simp [hc]

theorem c4_amended_threshold_short_circuit_witness :
    (3 : Int) ≠ 0 ∧ (0 : Int) < 50 ∧ (3 : Int) ≤ 50 ∧
    analyze_smart_attribute 5 0 (some 3) (some 50) 0
        = ("CRIT", "Failed Threshold") :=
  ⟨by decide, by decide, by decide,
   c4_amended_threshold_short_circuit 5 0 3 50 0 (by decide) (by decide) (by decide)⟩

/-- C5 counterexample: for id 5, raw 11 with the threshold check not
triggered, the code returns ("CRIT", "11 bad sectors"), not the status string
"CRITICAL" the claim names (likewise "WARN", not "WARNING"). -/
theorem c5_id5_status_strings_counterexample :
    analyze_smart_attribute 5 11 none none 0 = ("CRIT", "11 bad sectors") ∧
    analyze_smart_attribute 5 11 none none 0 ≠ ("CRITICAL", "11 bad sectors") ∧
    analyze_smart_attribute 5 3 none none 0 ≠ ("WARNING", "3 bad sectors") := by
  decide

/-- C5 amended: for id = 5 with the threshold check not triggered, the result
is ("CRIT", "{raw} bad sectors") when raw > 10, ("WARN", "{raw} bad sectors")
when 0 < raw ≤ 10, and ("OK", "Good") when raw = 0 — the status strings being
the ones the code uses: "OK", "WARN", "CRIT". -/
theorem c5_amended_id5_classification (raw : Int) (n t : Option Int)
    (rotation_rate : Int) (hth : threshold_check n t = false) :
    (10 < raw →
      analyze_smart_attribute 5 raw n t rotation_rate
        = ("CRIT", toString raw ++ " bad sectors")) ∧
    (0 < raw → raw ≤ 10 →
      analyze_smart_attribute 5 raw n t rotation_rate
        = ("WARN", toString raw ++ " bad sectors")) ∧
    (raw = 0 →
      analyze_smart_attribute 5 raw n t rotation_rate = ("OK", "Good")) := by
  unfold analyze_smart_attribute
  refine ⟨fun h => ?_, fun h1 h2 => ?_, fun h0 => ?_⟩
  · simp [hth, h]
  · have hng : ¬ raw > 10 := by omega
    simp [hth, hng, h1]
  · subst h0
    simp [hth]

theorem c5_amended_id5_classification_witness :
    threshold_check none none = false ∧
    analyze_smart_attribute 5 11 none none 0 = ("CRIT", "11 bad sectors") ∧
    analyze_smart_attribute 5 3 none none 0 = ("WARN", "3 bad sectors") ∧
    analyze_smart_attribute 5 0 none none 0 = ("OK", "Good") :=
  ⟨rfl,
   (c5_amended_id5_classification 11 none none 0 rfl).1 (by decide),
   (c5_amended_id5_classification 3 none none 0 rfl).2.1 (by decide) (by decide),
   (c5_amended_id5_classification 0 none none 0 rfl).2.2 rfl⟩

/-- Replacing one table entry by one with a larger-or-equal penalty can only
lower (or keep) the health score, whatever the SMART flag and NVMe fields. -/
theorem calculate_health_score_pen_le (sp : Option Bool) (pu : Option Int)
    (pre post : List AtaAttr) (a b : AtaAttr)
    (hab : attrPenalty a ≤ attrPenalty b) :
    calculate_health_score ⟨sp, pu, pre ++ b :: post⟩ ≤
      calculate_health_score ⟨sp, pu, pre ++ a :: post⟩ := by
  unfold calculate_health_score
  by_cases hsp : sp.getD true = false
  · simp [hsp]
  · rcases pu with _ | p
    · simp only [hsp, if_false, foldl_scoreStep, List.map_append, List.sum_append,
        List.map_cons, List.sum_cons]
      apply max_le_max (le_refl 0)
      omega
    · simp [hsp]

/-- C6: replacing the raw value of one entry of one of the critical attribute
ids 5, 187, 197, 198 by a larger value never increases the score, all other
fields held fixed; and replacing the raw value of an entry whose id is outside
that set leaves the score unchanged. -/
theorem c6_score_monotone_and_id_invariant :
    (∀ (sp : Option Bool) (pu : Option Int) (pre post : List AtaAttr)
        (a : AtaAttr) (r : Int),
      (a.id = 5 ∨ a.id = 187 ∨ a.id = 197 ∨ a.id = 198) → a.raw_value ≤ r →
      calculate_health_score ⟨sp, pu, pre ++ { a with raw_value := r } :: post⟩ ≤
        calculate_health_score ⟨sp, pu, pre ++ a :: post⟩) ∧
    (∀ (sp : Option Bool) (pu : Option Int) (pre post : List AtaAttr)
        (a : AtaAttr) (r : Int),
      ¬ (a.id = 5 ∨ a.id = 187 ∨ a.id = 197 ∨ a.id = 198) →
      calculate_health_score ⟨sp, pu, pre ++ { a with raw_value := r } :: post⟩ =
        calculate_health_score ⟨sp, pu, pre ++ a :: post⟩) := by
  constructor
  · intro sp pu pre post a r _ hr
    exact calculate_health_score_pen_le sp pu pre post a _ (attrPenalty_mono a r hr)
  · intro sp pu pre post a r hid
    have h1 : attrPenalty a = 0 := attrPenalty_eq_zero a hid
    have h2 : attrPenalty { a with raw_value := r } = 0 := attrPenalty_eq_zero _ hid
    exact le_antisymm
      (calculate_health_score_pen_le sp pu pre post a _ (by omega))
      (calculate_health_score_pen_le sp pu pre post { a with raw_value := r } a
        (by omega))

theorem c6_score_monotone_and_id_invariant_witness :
    ((⟨5, 1, none⟩ : AtaAttr).id = 5 ∨ (⟨5, 1, none⟩ : AtaAttr).id = 187 ∨
      (⟨5, 1, none⟩ : AtaAttr).id = 197 ∨ (⟨5, 1, none⟩ : AtaAttr).id = 198) ∧
    (⟨5, 1, none⟩ : AtaAttr).raw_value ≤ 2 ∧
    calculate_health_score ⟨some true, none, [⟨5, 2, none⟩]⟩ ≤
      calculate_health_score ⟨some true, none, [⟨5, 1, none⟩]⟩ ∧
    ¬ ((⟨9, 1, none⟩ : AtaAttr).id = 5 ∨ (⟨9, 1, none⟩ : AtaAttr).id = 187 ∨
      (⟨9, 1, none⟩ : AtaAttr).id = 197 ∨ (⟨9, 1, none⟩ : AtaAttr).id = 198) ∧
    calculate_health_score ⟨some true, none, [⟨9, 2, none⟩]⟩ =
      calculate_health_score ⟨some true, none, [⟨9, 1, none⟩]⟩ := by
  refine ⟨by decide, by decide, ?_, by decide, ?_⟩
  · exact c6_score_monotone_and_id_invariant.1 (some true) none [] [] ⟨5, 1, none⟩ 2
      (by decide) (by decide)
  · exact c6_score_monotone_and_id_invariant.2 (some true) none [] [] ⟨9, 1, none⟩ 2
      (by decide)

/-- C7: after logging sample A (rsc 0, read errors 0, hours 10, pending 0)
and then sample B (rsc 3, read errors 0, hours 11, pending 0) for serial
"SER1", analyze_trend returns status CRITICAL with both the immediate-delta
message "New Reallocated Sectors detected! (+3)" and the since-first-scan
message "Reallocated Sectors increased by 3 since first scan." present. -/
theorem c7_trend_escalation :
    (analyze_trend c7_db "SER1").status = "CRITICAL" ∧
    "New Reallocated Sectors detected! (+3)" ∈ (analyze_trend c7_db "SER1").messages ∧
    "Reallocated Sectors increased by 3 since first scan."
      ∈ (analyze_trend c7_db "SER1").messages := by
  decide

/-! Helper lemmas for the trend analyzer and the history store. -/

theorem sinceFirstCheck_read_err_trend (c : Sample) (o : Option Sample)
    (r : TrendResult) :
    (sinceFirstCheck c o r).read_err_trend = r.read_err_trend := by
  unfold sinceFirstCheck
  rcases o with _ | old
  · rfl
  · dsimp only
    split <;> rfl

theorem immediateCheck_read_err_trend (c : Sample) (rest : List Sample)
    (r : TrendResult) :
    (immediateCheck c rest r).read_err_trend = r.read_err_trend := by
  unfold immediateCheck
  rcases rest with _ | ⟨prev, rest⟩
  · rfl
  · dsimp only
    repeat' split
    all_goals rfl

theorem absoluteCheck_read_err_trend (c : Sample) (r : TrendResult) :
    (absoluteCheck c r).read_err_trend = r.read_err_trend := by
  unfold absoluteCheck
  dsimp only
  repeat' split
  all_goals rfl

/-- C8: for every store state and every serial, the read_err_trend field of
the analyze_trend result is 0: it is initialized to 0 and no branch of the
analyzer ever assigns it. -/
theorem c8_read_err_trend_always_zero (db : List Sample) (serial : String) :
    (analyze_trend db serial).read_err_trend = 0 := by
  unfold analyze_trend
  cases h : (descRows db serial).take 2 with
  | nil => rfl
  | cons current rest =>
      simp only [absoluteCheck_read_err_trend, immediateCheck_read_err_trend,
        sinceFirstCheck_read_err_trend]

theorem insertAsc_cons_of_le (a b : Sample) (l : List Sample)
    (h : a.timestamp ≤ b.timestamp) : insertAsc a (b :: l) = a :: b :: l := by
  unfold insertAsc
  simp [h]

/-- The model of ORDER BY is the identity on serial-filtered row lists whose
timestamps are already non-decreasing in insertion order. -/
theorem sortAsc_eq_self (l : List Sample)
    (h : l.Pairwise (fun a b => a.timestamp ≤ b.timestamp)) : sortAsc l = l := by
  induction l with
  | nil => rfl
  | cons a l ih =>
      rw [sortAsc, ih (List.Pairwise.of_cons h)]
      rcases l with _ | ⟨b, l⟩
      · rfl
      · exact insertAsc_cons_of_le a b l ((List.pairwise_cons.mp h).1 b (by simp))

/-- C9: for every store state whose rows for the serial have strictly
increasing timestamps in insertion order, get_io_history returns exactly the
(timestamp, io_load) pairs of the first `limit` samples by insertion order
(the oldest ones, not the most recent), hence at most `limit` entries, in
strictly ascending timestamp order. -/
theorem c9_get_io_history_oldest_window (db : List Sample) (serial : String)
    (limit : Nat)
    (h : (rowsFor db serial).Pairwise (fun a b => a.timestamp < b.timestamp)) :
    get_io_history db serial limit
      = ((rowsFor db serial).take limit).map (fun s => (s.timestamp, s.io_load)) ∧
    (get_io_history db serial limit).length ≤ limit ∧
    (get_io_history db serial limit).Pairwise (fun p q => p.1 < q.1) := by
  have hasc : ascRows db serial = rowsFor db serial :=
    sortAsc_eq_self _ (h.imp (fun hab => le_of_lt hab))
  unfold get_io_history
  rw [hasc]
  refine ⟨rfl, ?_, ?_⟩
  · rw [List.length_map, List.length_take]
    exact min_le_left _ _
  · rw [List.pairwise_map]
    exact List.Pairwise.sublist (List.take_sublist _ _) h

theorem c9_get_io_history_oldest_window_witness :
    (rowsFor c9_db "S9").Pairwise (fun a b => a.timestamp < b.timestamp) ∧
    (get_io_history c9_db "S9" 2
        = ((rowsFor c9_db "S9").take 2).map (fun s => (s.timestamp, s.io_load)) ∧
      (get_io_history c9_db "S9" 2).length ≤ 2 ∧
      (get_io_history c9_db "S9" 2).Pairwise (fun p q => p.1 < q.1)) :=
  ⟨by decide, c9_get_io_history_oldest_window c9_db "S9" 2 (by decide)⟩

/-- Under monotone per-serial timestamps, the DESC LIMIT 1 query of
get_latest_stats picks the last row inserted for the serial. -/
theorem get_latest_stats_eq_getLast (db : List Sample) (serial : String)
    (h : (rowsFor db serial).Pairwise (fun a b => a.timestamp < b.timestamp)) :
    get_latest_stats db serial
      = ((rowsFor db serial).getLast?).map latestStatsOf := by
  unfold get_latest_stats descRows
  rw [show ascRows db serial = rowsFor db serial from
    sortAsc_eq_self _ (h.imp (fun hab => le_of_lt hab))]
  rw [List.head?_reverse]

theorem rowsFor_map (db : List Sample) (serial : String) (f : Sample → Sample)
    (hf : ∀ s, (f s).serial_number = s.serial_number) :
    rowsFor (db.map f) serial = (rowsFor db serial).map f := by
  induction db with
  | nil => rfl
  | cons a db ih =>
      unfold rowsFor at *
      rw [List.map_cons, List.filter_cons, List.filter_cons, hf a]
      split
      · rw [List.map_cons, ih]
      · exact ih

/-- C10: under monotone per-serial timestamps, get_latest_stats of a serial
with at least one sample returns exactly the record of the five selected
columns (reallocated_sectors, read_errors, power_on_hours, pending_sectors,
timestamp) of the most recently inserted sample; and the result is invariant
under arbitrary changes to the stored io_load and write_errors values, which
the SELECT does not return. -/
theorem c10_get_latest_stats_fields (db : List Sample) (serial : String)
    (gio : Sample → Int) (gw : Sample → Option Int)
    (h : (rowsFor db serial).Pairwise (fun a b => a.timestamp < b.timestamp))
    (hne : rowsFor db serial ≠ []) :
    get_latest_stats db serial
        = some (latestStatsOf ((rowsFor db serial).getLast hne)) ∧
    get_latest_stats
        (db.map (fun s => { s with io_load := gio s, write_errors := gw s })) serial
      = get_latest_stats db serial := by
  have h1 := get_latest_stats_eq_getLast db serial h
  constructor
  · rw [h1, List.getLast?_eq_getLast _ hne]
    rfl
  · have hrows : rowsFor
          (db.map (fun s => { s with io_load := gio s, write_errors := gw s })) serial
        = (rowsFor db serial).map
            (fun s => { s with io_load := gio s, write_errors := gw s }) :=
      rowsFor_map db serial _ (fun s => rfl)
    have h2 : (rowsFor
          (db.map (fun s => { s with io_load := gio s, write_errors := gw s }))
            serial).Pairwise (fun a b => a.timestamp < b.timestamp) := by
      rw [hrows, List.pairwise_map]
      exact h
    rw [get_latest_stats_eq_getLast _ serial h2, h1, hrows, List.getLast?_map,
      Option.map_map]
    cases (rowsFor db serial).getLast? <;> rfl

theorem c10_get_latest_stats_fields_witness :
    (rowsFor c10_db "S10").Pairwise (fun a b => a.timestamp < b.timestamp) ∧
    rowsFor c10_db "S10" ≠ [] ∧
    get_latest_stats c10_db "S10" = some ⟨3, 1, 11, 0, 2⟩ ∧
    get_latest_stats
        (c10_db.map (fun s => { s with io_load := 99, write_errors := none })) "S10"
      = get_latest_stats c10_db "S10" := by
  have h := c10_get_latest_stats_fields c10_db "S10" (fun _ => 99) (fun _ => none)
    (by decide) (by decide)
  exact ⟨by decide, by decide, h.1, h.2⟩
